import Mathlib

/-!
Shallow embedding of `src/main.py`, an OpenCV object-tracking demo script.

The script (single linear program):
  * picks a tracker kind from a fixed list of strings via an if/elif chain
    (lines 36-66), with a final `else` creating the MOSSE tracker;
  * opens a video file and performs ONE pre-loop `video.read()` (line 70),
    then checks `video.isOpened()` (line 72): on failure it prints an error
    and calls `exit()`; on success it creates and resizes a display window;
  * seeds `bbox = (1300, 405, 160, 120)` (line 85), calls
    `displayRectangle` (line 86) and `tracker.init(frame, bbox)` (line 89);
  * loops: read a frame, break on read failure, `ok, bbox =
    tracker.update(frame)` (line 98, note: `bbox` is reassigned
    unconditionally), draw a rectangle on success or a failure text on
    failure, draw the tracker label, show the frame, break when the polled
    key masked with 0xFF equals `ord("q")` (line 112), sleep;
  * after the loop, `video.release()` and `cv2.destroyAllWindows()` are
    each called twice (lines 117-118 and 121-122).

External capabilities (cv2 video decoding, GUI, the tracker algorithms,
matplotlib) are opaque: the video source is a list of frame identifiers,
the tracker's `update` is an arbitrary function from its call index to a
`(ok, bbox)` pair, and `cv2.waitKey` is an arbitrary function from its
call index to the returned key code.  Side effects are recorded as an
event trace; per-frame rendering is recorded as a list of draw overlays.
-/

namespace RaceCarTracker

/-- A bounding box `(x, y, w, h)` as in the script; the script's values are
numeric (Python ints from the literal, floats from the tracker); `int()`
truncation in `drawRectangle` is the identity on this integer embedding. -/
structure BBox where
  x : Int
  y : Int
  w : Int
  h : Int
deriving Repr, DecidableEq

/-- `cv2.FONT_HERSHEY_SIMPLEX` (the integer constant 0 in OpenCV). -/
def FONT_HERSHEY_SIMPLEX : Nat := 0

/-- A drawing overlay placed on a frame: `cv2.rectangle(frame, p1, p2,
color, thickness, lineType)` or `cv2.putText(frame, txt, location, font,
fontScale, color, thickness)`. -/
inductive DrawOp where
  | rect (p1 p2 : Int × Int) (color : Nat × Nat × Nat)
      (thickness lineType : Nat)
  | text (txt : String) (location : Int × Int) (font fontScale : Nat)
      (color : Nat × Nat × Nat) (thickness : Nat)
deriving Repr, DecidableEq

/-- A decoded frame: an identifier for the underlying image buffer plus the
overlays drawn onto it so far.  Frames come out of `video.read()` with no
overlays. -/
structure Frame where
  idx : Nat
  overlays : List DrawOp
deriving Repr, DecidableEq

/-- `drawRectangle` (main.py lines 16-19): `p1 = (int(bbox[0]),
int(bbox[1]))`, `p2 = (int(bbox[0] + bbox[2]), int(bbox[1] + bbox[3]))`,
then `cv2.rectangle(frame, p1, p2, (255, 0, 0), 2, 1)`. -/
def drawRectangle (frame : Frame) (bbox : BBox) : Frame :=
  let p1 : Int × Int := (bbox.x, bbox.y)
  let p2 : Int × Int := (bbox.x + bbox.w, bbox.y + bbox.h)
  { frame with overlays := frame.overlays ++ [DrawOp.rect p1 p2 (255, 0, 0) 2 1] }

/-- `drawText` (main.py lines 31-32): `cv2.putText(frame, txt, location,
cv2.FONT_HERSHEY_SIMPLEX, 1, color, 3)`.  The Python default for `color`
is `(50, 170, 50)`; callers here always pass the color explicitly. -/
def drawText (frame : Frame) (txt : String) (location : Int × Int)
    (color : Nat × Nat × Nat) : Frame :=
  { frame with
      overlays := frame.overlays ++
        [DrawOp.text txt location FONT_HERSHEY_SIMPLEX 1 color 3] }

/-- `displayRectangle` (main.py lines 22-28): draws the rectangle on a copy
of the frame and shows it through matplotlib; the RGB/BGR conversion and
the matplotlib figure are display-only effects outside the embedded state,
so the modelled result is the overlaid copy. -/
def displayRectangle (frame : Frame) (bbox : BBox) : Frame :=
  drawRectangle frame bbox

/-- The eight tracker implementations the if/elif chain can create
(main.py lines 51-66). -/
inductive TrackerKind where
  | boosting | mil | kcf | csrt | tld | medianflow | goturn | mosse
deriving Repr, DecidableEq

/-- `tracker_types` (main.py lines 36-45). -/
def tracker_types : List String :=
  ["BOOSTING", "MIL", "KCF", "CSRT", "TLD", "MEDIANFLOW", "GOTURN", "MOSSE"]

/-- `tracker_type = tracker_types[6]` (main.py line 48); index 6 is in
range, so Python indexing agrees with `getD`. -/
def tracker_type : String := tracker_types.getD 6 ""

/-- The if/elif/else chain selecting the tracker implementation from the
`tracker_type` string (main.py lines 51-66); the final `else` creates the
MOSSE tracker. -/
def selectTracker (s : String) : TrackerKind :=
  if s = "BOOSTING" then TrackerKind.boosting
  else if s = "MIL" then TrackerKind.mil
  else if s = "KCF" then TrackerKind.kcf
  else if s = "CSRT" then TrackerKind.csrt
  else if s = "TLD" then TrackerKind.tld
  else if s = "MEDIANFLOW" then TrackerKind.medianflow
  else if s = "GOTURN" then TrackerKind.goturn
  else TrackerKind.mosse

/-- The tracker object created at import time. -/
def tracker : TrackerKind := selectTracker tracker_type

/-- `bbox = (1300, 405, 160, 120)` (main.py line 85). -/
def bbox0 : BBox := { x := 1300, y := 405, w := 160, h := 120 }

/-- Observable side effects of the script, in program order. -/
inductive Event where
  | videoCaptureCall
  | readCall (ok : Bool)
  | printMsg (msg : String)
  | exitCall
  | namedWindowCall
  | resizeWindowCall
  | displayRectangleCall
  | trackerInitCall (frameIdx : Option Nat)
  | trackerUpdateCall (ok : Bool)
  | imshowCall
  | waitKeyCall (k : Nat)
  | sleepCall
  | releaseCall
  | destroyAllWindowsCall
deriving Repr, DecidableEq

/-- How one completed loop iteration (one with a successful read) went:
the update's success flag, the bounding box the script holds after the
update, and the frame as displayed by `cv2.imshow`. -/
structure IterRec where
  ok : Bool
  bbox : BBox
  shown : Frame
deriving Repr, DecidableEq

/-- Why the `while True` loop exited: the in-loop read failed (stream
end), or the masked polled key equalled `ord("q")`. -/
inductive ExitReason where
  | streamEnd
  | quitKey
deriving Repr, DecidableEq

/-- Everything observable about one run of the loop. -/
structure LoopOut where
  events : List Event
  recs : List IterRec
  bbox : BBox
  exit : ExitReason
deriving Repr, DecidableEq

/-- The `while True:` loop (main.py lines 91-115).  `rest` is what remains
of the video stream, `k` counts the iterations already completed (the
tracker-update and waitKey call indices), and the third argument is the
value of the Python variable `bbox` on loop entry.  Each iteration: read
(break on failure), `ok, bbox = tracker.update(frame)` -- note the
unconditional reassignment of `bbox` -- then rectangle or failure text,
the tracker label, `imshow`, and the `waitKey(1) & 0xFF == ord("q")`
check (the 0xFF mask is `% 256`; `ord("q") = Char.toNat q = 113`). -/
def runLoop (upd : Nat → Bool × BBox) (keys : Nat → Nat) :
    List Nat → Nat → BBox → LoopOut
  | [], _, b =>
      { events := [Event.readCall false], recs := [], bbox := b,
        exit := ExitReason.streamEnd }
  | fid :: rest, k, _ =>
      let u := upd k
      let f0 : Frame := { idx := fid, overlays := [] }
      let f1 := if u.1 then drawRectangle f0 u.2
                else drawText f0 "Tracking failure detected" (80, 140) (0, 0, 255)
      let f2 := drawText f1 (tracker_type ++ " Tracker") (80, 60) (50, 170, 50)
      let kv := keys k
      if kv % 256 = Char.toNat 'q' then
        { events := [Event.readCall true, Event.trackerUpdateCall u.1,
                     Event.imshowCall, Event.waitKeyCall kv],
          recs := [{ ok := u.1, bbox := u.2, shown := f2 }],
          bbox := u.2, exit := ExitReason.quitKey }
      else
        let out := runLoop upd keys rest (k + 1) u.2
        { events := Event.readCall true :: Event.trackerUpdateCall u.1 ::
                    Event.imshowCall :: Event.waitKeyCall kv ::
                    Event.sleepCall :: out.events,
          recs := { ok := u.1, bbox := u.2, shown := f2 } :: out.recs,
          bbox := out.bbox, exit := out.exit }

/-- The observable outcome of one run of the whole script. -/
structure ProgOut where
  trace : List Event
  loopOut : Option LoopOut
deriving Repr, DecidableEq

/-- The whole script (main.py lines 69-122).  `opened` models
`video.isOpened()`, `frames` the decodable frames of the file in order.
Order as in the source: `VideoCapture`, one pre-loop `video.read()`
(line 70), the `isOpened` check (print + `exit()` on failure), window
setup, `displayRectangle`, `tracker.init` with the frame of the single
pre-loop read (line 89), the loop over the remaining frames, and then
`video.release()` and `cv2.destroyAllWindows()` each executed twice
(lines 117-118 and again 121-122). -/
def runProgram (opened : Bool) (frames : List Nat)
    (upd : Nat → Bool × BBox) (keys : Nat → Nat) : ProgOut :=
  let pre : List Event := [Event.videoCaptureCall, Event.readCall (!frames.isEmpty)]
  if opened = false then
    { trace := pre ++ [Event.printMsg "Error opening video file", Event.exitCall],
      loopOut := none }
  else
    let out := runLoop upd keys (frames.drop 1) 0 bbox0
    { trace := pre ++
        [Event.namedWindowCall, Event.resizeWindowCall,
         Event.displayRectangleCall, Event.trackerInitCall frames.head?] ++
        out.events ++
        [Event.releaseCall, Event.destroyAllWindowsCall,
         Event.releaseCall, Event.destroyAllWindowsCall],
      loopOut := some out }

/-- Is this event a `video.read()` call? -/
def isReadEvent : Event → Bool
  | Event.readCall _ => true
  | _ => false

/-- Is this event a `tracker.update` call? -/
def isUpdateEvent : Event → Bool
  | Event.trackerUpdateCall _ => true
  | _ => false

/-- Number of `video.read()` calls in a trace. -/
def readCount (es : List Event) : Nat := es.countP isReadEvent

/-- Number of `tracker.update` calls in a trace. -/
def updateCount (es : List Event) : Nat := es.countP isUpdateEvent

/-- Number of `cv2.VideoCapture` acquisitions in a trace. -/
def captureCount (es : List Event) : Nat :=
  es.countP fun e => decide (e = Event.videoCaptureCall)

/-- Number of `cv2.namedWindow` acquisitions in a trace. -/
def windowCount (es : List Event) : Nat :=
  es.countP fun e => decide (e = Event.namedWindowCall)

/-- Number of `video.release()` calls in a trace. -/
def releaseCount (es : List Event) : Nat :=
  es.countP fun e => decide (e = Event.releaseCall)

/-- Number of `cv2.destroyAllWindows()` calls in a trace. -/
def destroyCount (es : List Event) : Nat :=
  es.countP fun e => decide (e = Event.destroyAllWindowsCall)

/-- Number of `video.read()` calls that occur before the first
`tracker.init` call in a trace. -/
def readsBeforeInit : List Event → Nat
  | [] => 0
  | Event.trackerInitCall _ :: _ => 0
  | Event.readCall _ :: es => readsBeforeInit es + 1
  | _ :: es => readsBeforeInit es

/-! ## Helper lemmas shared across claims -/

/-- What any displayed frame's overlays look like: the rectangle built from
the iteration's bounding box on success, or the failure text on failure,
followed in both cases by the tracker label. -/
theorem runLoop_recs_shown (upd : Nat → Bool × BBox) (keys : Nat → Nat) :
    ∀ (rest : List Nat) (k : Nat) (b : BBox) (r : IterRec),
      r ∈ (runLoop upd keys rest k b).recs →
      r.shown.overlays =
        (if r.ok then
          [DrawOp.rect (r.bbox.x, r.bbox.y)
            (r.bbox.x + r.bbox.w, r.bbox.y + r.bbox.h) (255, 0, 0) 2 1]
         else
          [DrawOp.text "Tracking failure detected" (80, 140)
            FONT_HERSHEY_SIMPLEX 1 (0, 0, 255) 3]) ++
        [DrawOp.text (tracker_type ++ " Tracker") (80, 60)
          FONT_HERSHEY_SIMPLEX 1 (50, 170, 50) 3] := by
  intro rest
  induction rest with
  | nil =>
      intro k b r hr
      simp [runLoop] at hr
  | cons fid rest ih =>
      intro k b r hr
      by_cases hkey : keys k % 256 = Char.toNat 'q'
      · simp only [runLoop, if_pos hkey, List.mem_singleton] at hr
        subst hr
        by_cases hok : (upd k).1 <;>
          simp [hok, drawRectangle, drawText]
      · simp only [runLoop, if_neg hkey, List.mem_cons] at hr
        rcases hr with hr | hr
        · subst hr
          by_cases hok : (upd k).1 <;>
            simp [hok, drawRectangle, drawText]
        · exact ih (k + 1) (upd k).2 r hr

/-- Per-run read and update counts: with no quit key, the loop performs
one read per remaining frame plus the final failing read, and one update
per remaining frame. -/
theorem runLoop_counts (upd : Nat → Bool × BBox) (keys : Nat → Nat)
    (hq : ∀ i, keys i % 256 ≠ Char.toNat 'q') :
    ∀ (rest : List Nat) (k : Nat) (b : BBox),
      readCount (runLoop upd keys rest k b).events = rest.length + 1 ∧
      updateCount (runLoop upd keys rest k b).events = rest.length := by
  intro rest
  induction rest with
  | nil =>
      intro k b
      simp [runLoop, readCount, updateCount, isReadEvent, isUpdateEvent]
  | cons fid rest ih =>
      intro k b
      have h := ih (k + 1) (upd k).2
      simp only [runLoop, if_neg (hq k)]
      simp only [readCount, updateCount, List.countP_cons] at h ⊢
      simp [isReadEvent, isUpdateEvent, h.1, h.2]

/-- The loop's events are only reads, updates, shows, key polls and
sleeps: in particular no `exit()`, no releases, no window calls. -/
theorem runLoop_events_shape (upd : Nat → Bool × BBox) (keys : Nat → Nat) :
    ∀ (rest : List Nat) (k : Nat) (b : BBox),
      ∀ e ∈ (runLoop upd keys rest k b).events,
        (∃ ok, e = Event.readCall ok) ∨ (∃ ok, e = Event.trackerUpdateCall ok) ∨
        e = Event.imshowCall ∨ (∃ kv, e = Event.waitKeyCall kv) ∨
        e = Event.sleepCall := by
  intro rest
  induction rest with
  | nil =>
      intro k b e he
      simp [runLoop] at he
      simp [he]
  | cons fid rest ih =>
      intro k b e he
      by_cases hkey : keys k % 256 = Char.toNat 'q'
      · simp only [runLoop, if_pos hkey] at he
        simp only [List.mem_cons, List.not_mem_nil, or_false] at he
        rcases he with h | h | h | h <;> subst h <;> simp
      · simp only [runLoop, if_neg hkey] at he
        simp only [List.mem_cons] at he
        rcases he with h | h | h | h | h | h
        · subst h; simp
        · subst h; simp
        · subst h; simp
        · subst h; simp
        · subst h; simp
        · exact ih (k + 1) (upd k).2 e h

/-- The loop exits with the quit-key reason exactly when some polled key,
masked to its low byte, equals `ord("q")` while frames remain. -/
theorem runLoop_quit_iff (upd : Nat → Bool × BBox) (keys : Nat → Nat) :
    ∀ (rest : List Nat) (k : Nat) (b : BBox),
      ((runLoop upd keys rest k b).exit = ExitReason.quitKey ↔
        ∃ i, i < rest.length ∧ keys (k + i) % 256 = Char.toNat 'q') := by
  intro rest
  induction rest with
  | nil =>
      intro k b
      simp [runLoop]
  | cons fid rest ih =>
      intro k b
      by_cases hkey : keys k % 256 = Char.toNat 'q'
      · simp only [runLoop, if_pos hkey, List.length_cons]
        constructor
        · intro _
          exact ⟨0, by omega, by simpa using hkey⟩
        · intro _
          trivial
      · simp only [runLoop, if_neg hkey]
        rw [ih (k + 1) (upd k).2]
        simp only [List.length_cons]
        constructor
        · rintro ⟨i, hi, hk⟩
          refine ⟨i + 1, by omega, ?_⟩
          rw [show k + (i + 1) = k + 1 + i by omega]
          exact hk
        · rintro ⟨i, hi, hk⟩
          cases i with
          | zero => exact absurd (by simpa using hk) hkey
          | succ j =>
              refine ⟨j, by omega, ?_⟩
              rw [show k + 1 + j = k + (j + 1) by omega]
              exact hk

/-- The loop performs no resource acquisition or release, no `exit()` and
no `tracker.init`: those all live outside the `while` body. -/
theorem runLoop_no_resource_events (upd : Nat → Bool × BBox) (keys : Nat → Nat)
    (rest : List Nat) (k : Nat) (b : BBox) :
    releaseCount (runLoop upd keys rest k b).events = 0 ∧
    destroyCount (runLoop upd keys rest k b).events = 0 ∧
    captureCount (runLoop upd keys rest k b).events = 0 ∧
    windowCount (runLoop upd keys rest k b).events = 0 ∧
    Event.exitCall ∉ (runLoop upd keys rest k b).events ∧
    (∀ o, Event.trackerInitCall o ∉ (runLoop upd keys rest k b).events) := by
  have shape := runLoop_events_shape upd keys rest k b
  refine ⟨?_, ?_, ?_, ?_, ?_, ?_⟩
  · rw [releaseCount, List.countP_eq_zero]
    intro e he
    rcases shape e he with ⟨ok, h⟩ | ⟨ok, h⟩ | h | ⟨kv, h⟩ | h <;> subst h <;> simp
  · rw [destroyCount, List.countP_eq_zero]
    intro e he
    rcases shape e he with ⟨ok, h⟩ | ⟨ok, h⟩ | h | ⟨kv, h⟩ | h <;> subst h <;> simp
  · rw [captureCount, List.countP_eq_zero]
    intro e he
    rcases shape e he with ⟨ok, h⟩ | ⟨ok, h⟩ | h | ⟨kv, h⟩ | h <;> subst h <;> simp
  · rw [windowCount, List.countP_eq_zero]
    intro e he
    rcases shape e he with ⟨ok, h⟩ | ⟨ok, h⟩ | h | ⟨kv, h⟩ | h <;> subst h <;> simp
  · intro he
    rcases shape _ he with ⟨ok, h⟩ | ⟨ok, h⟩ | h | ⟨kv, h⟩ | h <;> simp at h
  · intro o he
    rcases shape _ he with ⟨ok, h⟩ | ⟨ok, h⟩ | h | ⟨kv, h⟩ | h <;> simp at h

/-! ## Claim theorems -/

/-- C3: on every loop iteration whose tracker update succeeds with box
`(x, y, w, h)`, the rectangle drawn on the displayed frame has top-left
corner `(x, y)` and bottom-right corner `(x + w, y + h)` (followed only by
the tracker label); the witness instantiates this with the seed box
`(1300, 405, 160, 120)` and a stub tracker that always succeeds returning
that box, giving corners `(1300, 405)` and `(1460, 525)` on the first
rendered frame. -/
theorem success_rect_corners (upd : Nat → Bool × BBox) (keys : Nat → Nat)
    (rest : List Nat) (k : Nat) (b : BBox) (r : IterRec)
    (hr : r ∈ (runLoop upd keys rest k b).recs) (hok : r.ok = true) :
    r.shown.overlays =
      [DrawOp.rect (r.bbox.x, r.bbox.y)
        (r.bbox.x + r.bbox.w, r.bbox.y + r.bbox.h) (255, 0, 0) 2 1,
       DrawOp.text (tracker_type ++ " Tracker") (80, 60)
        FONT_HERSHEY_SIMPLEX 1 (50, 170, 50) 3] := by
  have h := runLoop_recs_shown upd keys rest k b r hr
  rw [hok] at h
  simpa using h

/-- Witness for C3: with the stub tracker that always succeeds returning
the seed box, the first rendered frame's rectangle has corners
`(1300, 405)` and `(1460, 525)`. -/
theorem success_rect_corners_witness :
    (⟨true, bbox0,
      ⟨1, [DrawOp.rect (1300, 405) (1460, 525) (255, 0, 0) 2 1,
           DrawOp.text "GOTURN Tracker" (80, 60)
             FONT_HERSHEY_SIMPLEX 1 (50, 170, 50) 3]⟩⟩ : IterRec) ∈
      (runLoop (fun _ => (true, bbox0)) (fun _ => 0) [1] 0 bbox0).recs ∧
    (⟨true, bbox0,
      ⟨1, [DrawOp.rect (1300, 405) (1460, 525) (255, 0, 0) 2 1,
           DrawOp.text "GOTURN Tracker" (80, 60)
             FONT_HERSHEY_SIMPLEX 1 (50, 170, 50) 3]⟩⟩ : IterRec).shown.overlays =
      [DrawOp.rect (1300, 405) (1460, 525) (255, 0, 0) 2 1,
       DrawOp.text "GOTURN Tracker" (80, 60)
         FONT_HERSHEY_SIMPLEX 1 (50, 170, 50) 3] := by
  constructor
  · decide
  · exact success_rect_corners (fun _ => (true, bbox0)) (fun _ => 0) [1] 0 bbox0 _
      (by decide) rfl

/-- C4: on every loop iteration whose tracker update fails, the displayed
frame carries the text `"Tracking failure detected"` (plus the tracker
label) and no rectangle overlay at all; instantiated at an always-failing
stub tracker by the witness. -/
theorem failure_text_no_rect (upd : Nat → Bool × BBox) (keys : Nat → Nat)
    (rest : List Nat) (k : Nat) (b : BBox) (r : IterRec)
    (hr : r ∈ (runLoop upd keys rest k b).recs) (hok : r.ok = false) :
    r.shown.overlays =
      [DrawOp.text "Tracking failure detected" (80, 140)
        FONT_HERSHEY_SIMPLEX 1 (0, 0, 255) 3,
       DrawOp.text (tracker_type ++ " Tracker") (80, 60)
        FONT_HERSHEY_SIMPLEX 1 (50, 170, 50) 3] ∧
    (∀ p1 p2 c t l, DrawOp.rect p1 p2 c t l ∉ r.shown.overlays) := by
  have h := runLoop_recs_shown upd keys rest k b r hr
  rw [hok] at h
  simp only [if_neg Bool.false_ne_true] at h
  refine ⟨by simpa using h, ?_⟩
  intro p1 p2 c t l hmem
  rw [h] at hmem
  simp at hmem

/-- Witness for C4: with a stub tracker that always fails, the rendered
frame shows the failure text and contains no rectangle. -/
theorem failure_text_no_rect_witness :
    (⟨false, bbox0,
      ⟨1, [DrawOp.text "Tracking failure detected" (80, 140)
             FONT_HERSHEY_SIMPLEX 1 (0, 0, 255) 3,
           DrawOp.text "GOTURN Tracker" (80, 60)
             FONT_HERSHEY_SIMPLEX 1 (50, 170, 50) 3]⟩⟩ : IterRec) ∈
      (runLoop (fun _ => (false, bbox0)) (fun _ => 0) [1] 0 bbox0).recs ∧
    ((⟨false, bbox0,
      ⟨1, [DrawOp.text "Tracking failure detected" (80, 140)
             FONT_HERSHEY_SIMPLEX 1 (0, 0, 255) 3,
           DrawOp.text "GOTURN Tracker" (80, 60)
             FONT_HERSHEY_SIMPLEX 1 (50, 170, 50) 3]⟩⟩ : IterRec).shown.overlays =
      [DrawOp.text "Tracking failure detected" (80, 140)
         FONT_HERSHEY_SIMPLEX 1 (0, 0, 255) 3,
       DrawOp.text "GOTURN Tracker" (80, 60)
         FONT_HERSHEY_SIMPLEX 1 (50, 170, 50) 3] ∧
     (∀ p1 p2 c t l, DrawOp.rect p1 p2 c t l ∉
        (⟨false, bbox0,
          ⟨1, [DrawOp.text "Tracking failure detected" (80, 140)
                 FONT_HERSHEY_SIMPLEX 1 (0, 0, 255) 3,
               DrawOp.text "GOTURN Tracker" (80, 60)
                 FONT_HERSHEY_SIMPLEX 1 (50, 170, 50) 3]⟩⟩ : IterRec).shown.overlays)) := by
  constructor
  · decide
  · exact failure_text_no_rect (fun _ => (false, bbox0)) (fun _ => 0) [1] 0 bbox0 _
      (by decide) rfl

/-- C2 counterexample: with a stub tracker whose update fails returning
the box `(0, 0, 0, 0)`, the iteration raises the failure flag yet the
script's `bbox` variable ends up holding `(0, 0, 0, 0)`, not the previous
value `(1300, 405, 160, 120)` -- so a failed update does NOT leave the
bounding box variable stale. -/
theorem bbox_stale_on_failure_counterexample :
    ((runLoop (fun _ => (false, ⟨0, 0, 0, 0⟩)) (fun _ => 0) [1] 0 bbox0).recs.map
        (fun r => (r.ok, r.bbox)) = [(false, (⟨0, 0, 0, 0⟩ : BBox))]) ∧
    (runLoop (fun _ => (false, ⟨0, 0, 0, 0⟩)) (fun _ => 0) [1] 0 bbox0).bbox ≠ bbox0 := by
  decide

/-- C2 amended: on every loop iteration the script's `bbox` variable is
unconditionally assigned the box returned by `tracker.update`, whether the
update succeeded or failed (`ok, bbox = tracker.update(frame)` reassigns
both); the failure flag is recorded alongside.  The variable keeps its
previous value only if the tracker itself returns that value; on failure
the box is merely not drawn. -/
theorem update_always_overwrites_bbox (upd : Nat → Bool × BBox) (keys : Nat → Nat)
    (fid : Nat) (rest : List Nat) (k : Nat) (b : BBox) :
    (runLoop upd keys (fid :: rest) k b).recs.head?.map (fun r => (r.ok, r.bbox)) =
      some ((upd k).1, (upd k).2) := by
  by_cases hkey : keys k % 256 = 113 <;>
    simp [runLoop, hkey]

/-- C10: every tracker-kind string other than the seven explicitly tested
ones falls through the if/elif chain to the final `else` and selects the
MOSSE tracker; nothing is rejected. -/
theorem unrecognized_kind_selects_mosse (s : String)
    (hs : s ∉ ["BOOSTING", "MIL", "KCF", "CSRT", "TLD", "MEDIANFLOW", "GOTURN"]) :
    selectTracker s = TrackerKind.mosse := by
  simp only [List.mem_cons, List.not_mem_nil, or_false, not_or] at hs
  obtain ⟨h1, h2, h3, h4, h5, h6, h7⟩ := hs
  simp [selectTracker, h1, h2, h3, h4, h5, h6, h7]

/-- Witness for C10: the unrecognized identifier `"DCF"` silently selects
the MOSSE tracker. -/
theorem unrecognized_kind_selects_mosse_witness :
    "DCF" ∉ ["BOOSTING", "MIL", "KCF", "CSRT", "TLD", "MEDIANFLOW", "GOTURN"] ∧
    selectTracker "DCF" = TrackerKind.mosse :=
  ⟨by decide, unrecognized_kind_selects_mosse "DCF" (by decide)⟩

/-- C1 counterexample: for a source with exactly 1 frame and no quit key,
the loop performs 1 iteration (equal to the frame count: its single read
fails, because the one frame was consumed by the pre-loop read) but 0
tracker updates -- refuting "one tracker update per source frame". -/
theorem one_frame_zero_updates_counterexample :
    readCount (runLoop (fun _ => (true, bbox0)) (fun _ => 0)
        (([0] : List Nat).drop 1) 0 bbox0).events = 1 ∧
    updateCount (runLoop (fun _ => (true, bbox0)) (fun _ => 0)
        (([0] : List Nat).drop 1) 0 bbox0).events = 0 ∧
    ¬ (updateCount (runLoop (fun _ => (true, bbox0)) (fun _ => 0)
        (([0] : List Nat).drop 1) 0 bbox0).events = ([0] : List Nat).length) := by
  decide

/-- C1 amended: if the quit key is never pressed and the source has at
least one frame, the loop terminates after exactly as many iterations
(read attempts) as there are frames in the source, but performs exactly
`frames.length - 1` tracker updates: the first frame is consumed by the
pre-loop read, each remaining frame gets one update, and the final
iteration's failed read breaks before any update. -/
theorem loop_iterations_eq_frame_count (frames : List Nat)
    (upd : Nat → Bool × BBox) (keys : Nat → Nat)
    (hne : frames ≠ [])
    (hq : ∀ i, keys i % 256 ≠ Char.toNat 'q') :
    readCount (runLoop upd keys (frames.drop 1) 0 bbox0).events = frames.length ∧
    updateCount (runLoop upd keys (frames.drop 1) 0 bbox0).events = frames.length - 1 := by
  have h := runLoop_counts upd keys hq (frames.drop 1) 0 bbox0
  have hlen : (frames.drop 1).length = frames.length - 1 := by
    simp [List.length_drop]
  have hpos : 0 < frames.length := List.length_pos.mpr hne
  rw [hlen] at h
  exact ⟨by omega, h.2⟩

/-- Witness for C1 amended: a three-frame source with no quit key gives 3
loop iterations and 2 tracker updates. -/
theorem loop_iterations_eq_frame_count_witness :
    readCount (runLoop (fun _ => (true, bbox0)) (fun _ => 0)
        (([0, 1, 2] : List Nat).drop 1) 0 bbox0).events = 3 ∧
    updateCount (runLoop (fun _ => (true, bbox0)) (fun _ => 0)
        (([0, 1, 2] : List Nat).drop 1) 0 bbox0).events = 2 :=
  loop_iterations_eq_frame_count [0, 1, 2] (fun _ => (true, bbox0)) (fun _ => 0)
    (by decide) (fun _ => (by decide : (0 : Nat) % 256 ≠ Char.toNat 'q'))

/-- C5: when the video source fails to open, the run reports the error and
exits, and the trace contains no `tracker.init` and no `tracker.update`;
when it does open, `exit()` is never called -- in particular a per-frame
update failure never terminates the process: with no quit key, every
remaining frame still gets its update regardless of the updates'
success flags. -/
theorem open_failure_exits_before_tracking (frames : List Nat)
    (upd : Nat → Bool × BBox) (keys : Nat → Nat)
    (hq : ∀ i, keys i % 256 ≠ Char.toNat 'q') :
    (Event.printMsg "Error opening video file" ∈ (runProgram false frames upd keys).trace ∧
     Event.exitCall ∈ (runProgram false frames upd keys).trace ∧
     (∀ o, Event.trackerInitCall o ∉ (runProgram false frames upd keys).trace) ∧
     (∀ bk, Event.trackerUpdateCall bk ∉ (runProgram false frames upd keys).trace)) ∧
    (Event.exitCall ∉ (runProgram true frames upd keys).trace ∧
     updateCount (runProgram true frames upd keys).trace = (frames.drop 1).length) := by
  have hloop := runLoop_no_resource_events upd keys frames.tail 0 bbox0
  have hcounts := runLoop_counts upd keys hq frames.tail 0 bbox0
  refine ⟨⟨?_, ?_, ?_, ?_⟩, ?_, ?_⟩
  · simp [runProgram]
  · simp [runProgram]
  · intro o
    simp [runProgram]
  · intro bk
    simp [runProgram]
  · simp only [runProgram, if_neg (by simp : ¬(true = false))]
    simp only [List.drop_one, List.append_assoc, List.mem_append, List.mem_cons,
      List.not_mem_nil]
    push_neg
    refine ⟨by simp, by simp, hloop.2.2.2.2.1, by simp⟩
  · simp only [runProgram, if_neg (by simp : ¬(true = false))]
    simp only [updateCount] at hcounts ⊢
    simp [List.countP_append, List.countP_cons, isUpdateEvent, hcounts.2]

/-- Witness for C5: with a two-frame source, an always-failing stub
tracker and no quit key, `exit()` never runs and the single remaining
frame still gets its tracker update. -/
theorem open_failure_exits_before_tracking_witness :
    Event.exitCall ∉
      (runProgram true [0, 1] (fun _ => (false, bbox0)) (fun _ => 0)).trace ∧
    updateCount (runProgram true [0, 1] (fun _ => (false, bbox0)) (fun _ => 0)).trace =
      (([0, 1] : List Nat).drop 1).length :=
  (open_failure_exits_before_tracking [0, 1] (fun _ => (false, bbox0)) (fun _ => 0)
    (fun _ => (by decide : (0 : Nat) % 256 ≠ Char.toNat 'q'))).2

/-- C6 counterexample: on a concrete normal-exit run, `video.release()`
and `cv2.destroyAllWindows()` are each executed twice (main.py lines
117-118 and again 121-122), refuting "exactly one release call per
resource". -/
theorem release_called_twice_counterexample :
    releaseCount (runProgram true [0] (fun _ => (true, bbox0)) (fun _ => 0)).trace = 2 ∧
    destroyCount (runProgram true [0] (fun _ => (true, bbox0)) (fun _ => 0)).trace = 2 ∧
    ¬ (releaseCount (runProgram true [0] (fun _ => (true, bbox0)) (fun _ => 0)).trace = 1) := by
  decide

/-- C6 amended: on every normal-exit run the video source and the display
window are each acquired exactly once at program start, and the release
calls at program end are each executed twice (the release/destroy pair is
duplicated at main.py lines 117-118 and 121-122; the second pair is
redundant but harmless since the calls are idempotent). -/
theorem resources_acquired_once_released_twice (frames : List Nat)
    (upd : Nat → Bool × BBox) (keys : Nat → Nat) :
    captureCount (runProgram true frames upd keys).trace = 1 ∧
    windowCount (runProgram true frames upd keys).trace = 1 ∧
    releaseCount (runProgram true frames upd keys).trace = 2 ∧
    destroyCount (runProgram true frames upd keys).trace = 2 := by
  have hloop := runLoop_no_resource_events upd keys frames.tail 0 bbox0
  obtain ⟨hrel, hdes, hcap, hwin, -, -⟩ := hloop
  simp only [runProgram, if_neg (by simp : ¬(true = false))]
  simp only [captureCount, windowCount, releaseCount, destroyCount] at hrel hdes hcap hwin ⊢
  refine ⟨?_, ?_, ?_, ?_⟩ <;>
    simp [List.countP_append, List.countP_cons, hrel, hdes, hcap, hwin]

/-- C7 counterexample: exactly one `video.read()` call precedes the
`tracker.init` call (the single pre-loop read at main.py line 70); there
is no second pre-init read, refuting "two frame-read calls are performed
before the loop". -/
theorem single_preloop_read_counterexample :
    readsBeforeInit (runProgram true [0, 1] (fun _ => (true, bbox0)) (fun _ => 0)).trace = 1 ∧
    ¬ (readsBeforeInit (runProgram true [0, 1] (fun _ => (true, bbox0)) (fun _ => 0)).trace = 2) := by
  decide

/-- C7 amended: before the tracking loop starts, the script performs
exactly one frame read, and the tracker is initialized with the frame
obtained by that single read (the head of the source). -/
theorem single_read_before_init (frames : List Nat)
    (upd : Nat → Bool × BBox) (keys : Nat → Nat) :
    readsBeforeInit (runProgram true frames upd keys).trace = 1 ∧
    Event.trackerInitCall frames.head? ∈ (runProgram true frames upd keys).trace := by
  constructor
  · simp [runProgram, readsBeforeInit]
  · simp [runProgram]

/-- C8: the loop exits only with the stream-end or quit-key reason; it
exits by quit exactly when some polled key, masked with 0xFF (`% 256`),
equals `ord("q")` while frames remain, and by stream end (the in-loop read
failing) exactly otherwise. -/
theorem loop_exit_conditions (upd : Nat → Bool × BBox) (keys : Nat → Nat)
    (rest : List Nat) (k : Nat) (b : BBox) :
    ((runLoop upd keys rest k b).exit = ExitReason.streamEnd ∨
     (runLoop upd keys rest k b).exit = ExitReason.quitKey) ∧
    ((runLoop upd keys rest k b).exit = ExitReason.quitKey ↔
      ∃ i, i < rest.length ∧ keys (k + i) % 256 = Char.toNat 'q') ∧
    ((runLoop upd keys rest k b).exit = ExitReason.streamEnd ↔
      ¬ ∃ i, i < rest.length ∧ keys (k + i) % 256 = Char.toNat 'q') := by
  have hq := runLoop_quit_iff upd keys rest k b
  have hdich : (runLoop upd keys rest k b).exit = ExitReason.streamEnd ∨
      (runLoop upd keys rest k b).exit = ExitReason.quitKey := by
    cases h : (runLoop upd keys rest k b).exit
    · exact Or.inl rfl
    · exact Or.inr rfl
  refine ⟨hdich, hq, ?_, ?_⟩
  · intro hse hex
    have := hq.mpr hex
    rw [hse] at this
    exact ExitReason.noConfusion this
  · intro hnex
    rcases hdich with h | h
    · exact h
    · exact absurd (hq.mp h) hnex

/-- C9: for a video source that yields no frames after the seed frame,
the loop performs zero tracker updates and renders nothing: its first
read fails and it exits immediately with the stream-end reason. -/
theorem no_frames_after_seed_zero_updates (f : Nat)
    (upd : Nat → Bool × BBox) (keys : Nat → Nat) :
    updateCount (runLoop upd keys (([f] : List Nat).drop 1) 0 bbox0).events = 0 ∧
    (runLoop upd keys (([f] : List Nat).drop 1) 0 bbox0).recs = [] ∧
    (runLoop upd keys (([f] : List Nat).drop 1) 0 bbox0).exit = ExitReason.streamEnd := by
  refine ⟨?_, ?_, ?_⟩ <;> simp [runLoop, updateCount, isUpdateEvent]

end RaceCarTracker
